import Mathlib

/-!
Shallow embedding of the NetScope usage-analytics core
(`app/services/usage_service.py` and `app/services/ingestion.py`).

Modelling conventions:
* instants (`datetime`) are integers counting seconds; `timedelta(days := n)`
  becomes `n * secondsPerDay`;
* data volumes are exact rationals (`Rat`); Python's `round(x, 2)` is modelled
  as decimal rounding with ties to even on exact rationals (binary-float
  representation error is abstracted away);
* the record store (the SQL table) is a `List UsageRecord`; SQL aggregates are
  folds over that list, `GROUP BY username` enumerates distinct usernames in
  first-appearance order, and `ORDER BY total_30d DESC` is a stable sort on the
  un-rounded 30-day total (the source specifies no tie-break);
* Python exceptions reachable inside the engine (`ZeroDivisionError` in the
  page-count arithmetic) are surfaced as an `Except` error value;
* ISO-serialized instants (`reference_date`, `timestamp`) keep their integer
  value in the response.
-/

namespace NetScope

/-- Seconds in one day: `timedelta(days=n)` is `n * secondsPerDay`. -/
def secondsPerDay : Int := 86400

/-- One stored internet-usage session (`UsageRecord` in `app/models.py`). -/
structure UsageRecord where
  username : String
  mac_address : String
  start_time : Int
  usage_time_seconds : Nat
  upload_kb : Rat
  download_kb : Rat
  total_kb : Rat
deriving Repr, DecidableEq

/-- Round a rational to the nearest integer with ties to even, the rounding
used by Python's builtin `round`. -/
def roundHalfEven (q : Rat) : Int :=
  if Int.fract q < 1/2 then ⌊q⌋
  else if Int.fract q = 1/2 then (if Even ⌊q⌋ then ⌊q⌋ else ⌊q⌋ + 1)
  else ⌊q⌋ + 1

/-- Python's `round(x, 2)` (used in `_row_to_usage_periods`), on exact
rationals. -/
def round2 (q : Rat) : Rat := (roundHalfEven (100 * q) : Rat) / 100

/-- One aggregation result row: the SELECT list built by
`_build_usage_aggregation` plus the grouped `username` column. -/
structure AggRow where
  username : String
  upload_1d : Rat
  download_1d : Rat
  total_1d : Rat
  sessions_1d : Nat
  upload_7d : Rat
  download_7d : Rat
  total_7d : Rat
  sessions_7d : Nat
  upload_30d : Rat
  download_30d : Rat
  total_30d : Rat
  sessions_30d : Nat
deriving Repr, DecidableEq

/-- SQL `COALESCE(SUM(CASE WHEN cutoff <= start_time THEN v ELSE 0 END), 0)`
over a list of records. -/
def condSum (recs : List UsageRecord) (cutoff : Int) (v : UsageRecord → Rat) : Rat :=
  (recs.map (fun r => if cutoff ≤ r.start_time then v r else 0)).sum

/-- SQL `SUM(CASE WHEN cutoff <= start_time THEN 1 ELSE 0 END)` over a list of
records. -/
def condCount (recs : List UsageRecord) (cutoff : Int) : Nat :=
  (recs.map (fun r => if cutoff ≤ r.start_time then 1 else 0)).sum

/-- The record rows inside the 30-day window `[R - 30 days, R]`: the
`start_time` filter shared by both queries of `get_top_users`. -/
def windowDb (db : List UsageRecord) (R : Int) : List UsageRecord :=
  db.filter (fun r =>
    decide (R - 30 * secondsPerDay ≤ r.start_time ∧ r.start_time ≤ R))

/-- The rows of one user inside the 30-day window: the filter of the
single-user aggregation query in `get_user_details` (and of one group of the
`GROUP BY username` query in `get_top_users`). -/
def windowRecords (db : List UsageRecord) (u : String) (R : Int) : List UsageRecord :=
  (windowDb db R).filter (fun r => decide (r.username = u))

/-- The aggregation row of user `u` for reference instant `R`: the twelve
conditional aggregates of `_build_usage_aggregation` evaluated over the
records of `u` in the 30-day window.  The 30-day columns are unconditional
(`SUM(col)` / `COUNT(id)`) because the outer query already restricts to the
30-day window. -/
def aggRow (db : List UsageRecord) (u : String) (R : Int) : AggRow :=
  let recs := windowRecords db u R
  let date_1d := R - 1 * secondsPerDay
  let date_7d := R - 7 * secondsPerDay
  { username := u
    upload_1d := condSum recs date_1d (fun r => r.upload_kb)
    download_1d := condSum recs date_1d (fun r => r.download_kb)
    total_1d := condSum recs date_1d (fun r => r.total_kb)
    sessions_1d := condCount recs date_1d
    upload_7d := condSum recs date_7d (fun r => r.upload_kb)
    download_7d := condSum recs date_7d (fun r => r.download_kb)
    total_7d := condSum recs date_7d (fun r => r.total_kb)
    sessions_7d := condCount recs date_7d
    upload_30d := (recs.map (fun r => r.upload_kb)).sum
    download_30d := (recs.map (fun r => r.download_kb)).sum
    total_30d := (recs.map (fun r => r.total_kb)).sum
    sessions_30d := recs.length }

/-- Output shape of one aggregated window (`UsagePeriod` in `app/schemas.py`). -/
structure UsagePeriod where
  upload_kb : Rat
  download_kb : Rat
  total_kb : Rat
  sessions : Nat
deriving Repr, DecidableEq

/-- The three windows produced by `_row_to_usage_periods`. -/
structure UsagePeriods where
  usage_1_day : UsagePeriod
  usage_7_days : UsagePeriod
  usage_30_days : UsagePeriod
deriving Repr, DecidableEq

/-- `_row_to_usage_periods`: 2-decimal rounding of the kb aggregates at the
output boundary; session counts stay integers. -/
def row_to_usage_periods (row : AggRow) : UsagePeriods :=
  { usage_1_day :=
      { upload_kb := round2 row.upload_1d
        download_kb := round2 row.download_1d
        total_kb := round2 row.total_1d
        sessions := row.sessions_1d }
    usage_7_days :=
      { upload_kb := round2 row.upload_7d
        download_kb := round2 row.download_7d
        total_kb := round2 row.total_7d
        sessions := row.sessions_7d }
    usage_30_days :=
      { upload_kb := round2 row.upload_30d
        download_kb := round2 row.download_30d
        total_kb := round2 row.total_30d
        sessions := row.sessions_30d } }

/-- `TopUserEntry` of `app/schemas.py`. -/
structure TopUserEntry where
  rank : Int
  username : String
  usage_1_day : UsagePeriod
  usage_7_days : UsagePeriod
  usage_30_days : UsagePeriod
deriving Repr, DecidableEq

/-- `TopUsersResponse` of `app/schemas.py` (`reference_date` keeps the instant
as an integer instead of its ISO serialization). -/
structure TopUsersResponse where
  page : Int
  per_page : Int
  total_users : Nat
  total_pages : Int
  reference_date : Int
  data : List TopUserEntry
deriving Repr, DecidableEq

/-- `UserDetailsResponse` of `app/schemas.py`. -/
structure UserDetailsResponse where
  username : String
  timestamp : Int
  usage_1_day : UsagePeriod
  usage_7_days : UsagePeriod
  usage_30_days : UsagePeriod
deriving Repr, DecidableEq

/-- Python exceptions the engine itself can raise: `ZeroDivisionError` from
`total_users / per_page` in `get_top_users`. -/
inductive EngineError where
  | zeroDivision
deriving Repr, DecidableEq

/-- Distinct usernames with at least one record in the 30-day window, in
first-appearance order: the universe counted by
`COUNT(DISTINCT username)` and grouped by `GROUP BY username`. -/
def windowUsers (db : List UsageRecord) (R : Int) : List String :=
  ((windowDb db R).map (fun r => r.username)).dedup

/-- `total_users` of `get_top_users`: the count of distinct usernames in the
30-day window (the query's `COALESCE(..., 0)` via `or 0` is the empty count). -/
def total_users_count (db : List UsageRecord) (R : Int) : Nat :=
  (windowUsers db R).length

/-- `ORDER BY total_30d DESC`: `a` precedes `b` when `a`'s un-rounded 30-day
total is at least `b`'s. -/
def byTotalDesc (a b : AggRow) : Prop := b.total_30d ≤ a.total_30d

instance : DecidableRel byTotalDesc := fun a b =>
  inferInstanceAs (Decidable (b.total_30d ≤ a.total_30d))

instance : IsTotal AggRow byTotalDesc :=
  ⟨fun a b => le_total b.total_30d a.total_30d⟩

instance : IsTrans AggRow byTotalDesc :=
  ⟨fun _ _ _ h1 h2 => le_trans h2 h1⟩

/-- The grouped aggregation rows of the top-users query, ordered by
`total_30d DESC` (stable sort; the source specifies no tie-break). -/
def sortedRows (db : List UsageRecord) (R : Int) : List AggRow :=
  List.insertionSort byTotalDesc ((windowUsers db R).map (fun u => aggRow db u R))

/-- Construction of one `TopUserEntry` from the enumerated query results:
`rank = offset + idx + 1` with the page's `username` and the three
`_row_to_usage_periods` windows. -/
def mkEntry (offset : Int) (p : Nat × AggRow) : TopUserEntry :=
  let periods := row_to_usage_periods p.2
  { rank := offset + p.1 + 1
    username := p.2.username
    usage_1_day := periods.usage_1_day
    usage_7_days := periods.usage_7_days
    usage_30_days := periods.usage_30_days }

/-- The successful response of `get_top_users` (everything after the
page-count division has been carried out without error).  `OFFSET`/`LIMIT`
are modelled for the non-negative values the engine is called with. -/
def top_users_response (db : List UsageRecord) (reference_date : Int)
    (page : Int) (per_page : Int) : TopUsersResponse :=
  let offset : Int := (page - 1) * per_page
  let tu : Nat := total_users_count db reference_date
  let total_pages : Int :=
    if 0 < tu then ⌈(tu : Rat) / (per_page : Rat)⌉ else 0
  let rows := ((sortedRows db reference_date).drop offset.toNat).take per_page.toNat
  { page := page
    per_page := per_page
    total_users := tu
    total_pages := total_pages
    reference_date := reference_date
    data := rows.enum.map (mkEntry offset) }

/-- `get_top_users` of `app/services/usage_service.py`.  The expression
`math.ceil(total_users / per_page) if total_users > 0 else 0` raises
`ZeroDivisionError` exactly when the division is reached (`total_users > 0`)
with `per_page = 0`; there is no validation of `page`/`per_page` before it. -/
def get_top_users (db : List UsageRecord) (reference_date : Int)
    (page : Int) (per_page : Int) : Except EngineError TopUsersResponse :=
  if 0 < total_users_count db reference_date ∧ per_page = 0 then
    .error .zeroDivision
  else
    .ok (top_users_response db reference_date page per_page)

/-- `get_user_details` of `app/services/usage_service.py`: existence check on
the bare username (no time filter), then the windowed single-user aggregation;
a user with no row in the window yields explicit zero periods. -/
def get_user_details (db : List UsageRecord) (username : String)
    (timestamp : Int) : Option UserDetailsResponse :=
  if (db.find? (fun r => decide (r.username = username))).isSome then
    let recs := windowRecords db username timestamp
    if recs.isEmpty then
      let empty_period : UsagePeriod :=
        { upload_kb := 0, download_kb := 0, total_kb := 0, sessions := 0 }
      some { username := username
             timestamp := timestamp
             usage_1_day := empty_period
             usage_7_days := empty_period
             usage_30_days := empty_period }
    else
      let periods := row_to_usage_periods (aggRow db username timestamp)
      some { username := username
             timestamp := timestamp
             usage_1_day := periods.usage_1_day
             usage_7_days := periods.usage_7_days
             usage_30_days := periods.usage_30_days }
  else none

/-- The data list of one requested page of the top-users listing (an erroring
call contributes no entries; with `per_page >= 1` no call errors). -/
def pageData (db : List UsageRecord) (R : Int) (n : Int) (k : Int) :
    List TopUserEntry :=
  match get_top_users db R k n with
  | .ok resp => resp.data
  | .error _ => []

/-- The concatenation of the data lists of pages `1..count` of the top-users
listing at a fixed reference instant: the full unpaginated ranked listing
once `count` covers all pages. -/
def pagesConcat (db : List UsageRecord) (R : Int) (n : Int) (count : Nat) :
    List TopUserEntry :=
  (List.range count).flatMap (fun k => pageData db R n ((k : Int) + 1))

/-! Ingestion pipeline (`app/services/ingestion.py`).  The pandas CSV reader
is abstracted to a `DataFrame` of raw string cells; the pandas datetime and
numeric parsers are passed in as functions, where `none` models a raising
(`pd.to_datetime`) respectively NaN-producing (`pd.to_numeric` with
`errors="coerce"`) cell. -/

/-- Python's `str.strip()` / pandas `.str.strip()`: drop leading and trailing
whitespace (modelled on the character list so that it evaluates). -/
def pyStrip (s : String) : String :=
  ⟨((s.data.dropWhile Char.isWhitespace).reverse.dropWhile Char.isWhitespace).reverse⟩

/-- `REQUIRED_COLUMNS` of `app/services/ingestion.py`. -/
def REQUIRED_COLUMNS : List String :=
  ["username", "mac_address", "start_time", "usage_time", "upload", "download"]

/-- One raw CSV data row: the six required cells as read by pandas. -/
structure CsvRow where
  username : String
  mac_address : String
  start_time : String
  usage_time : String
  upload : String
  download : String
deriving Repr, DecidableEq

/-- A parsed CSV file: header column names plus data rows (`df.empty` holds
exactly when `rows = []`). -/
structure DataFrame where
  columns : List String
  rows : List CsvRow
deriving Repr, DecidableEq

/-- The `ValueError`s (and `FileNotFoundError`-free failure modes) of
`ingest_data`. -/
inductive IngestError where
  | missingColumns
  | invalidTimeFormat
  | invalidStartTime
  | invalidNumeric
deriving Repr, DecidableEq

/-- `parse_usage_time`: convert `H:MM:SS` / `HH:MM:SS` to seconds, raising
`ValueError` on a wrong shape, non-numeric parts, or out-of-range values. -/
def parse_usage_time (time_str : String) : Except IngestError Nat :=
  match (pyStrip time_str).splitOn ":" with
  | [hs, ms, ss] =>
    match hs.toInt?, ms.toInt?, ss.toInt? with
    | some hours, some minutes, some seconds =>
      if minutes < 0 ∨ 59 < minutes ∨ seconds < 0 ∨ 59 < seconds ∨ hours < 0 then
        .error .invalidTimeFormat
      else
        .ok (hours * 3600 + minutes * 60 + seconds).toNat
    | _, _, _ => .error .invalidTimeFormat
  | _ => .error .invalidTimeFormat

/-- Assembly of the transformed columns into `UsageRecord`s, with
`total_kb := upload_kb + download_kb` computed at ingestion. -/
def buildRecords : List String → List String → List Int → List Nat →
    List Rat → List Rat → List UsageRecord
  | u :: us, m :: ms, s :: ss, t :: ts, up :: ups, d :: ds =>
    { username := u
      mac_address := m
      start_time := s
      usage_time_seconds := t
      upload_kb := up
      download_kb := d
      total_kb := up + d } :: buildRecords us ms ss ts ups ds
  | _, _, _, _, _, _ => []

/-- `ingest_data` of `app/services/ingestion.py` over the abstract store:
validate columns, return 0 early on an empty frame, transform column by
column (each transformation raising on its first bad cell), clear the store
when `clear_existing`, bulk-insert, and return the inserted count.  Batching
(`batch_size`) only splits the insert into chunks and is dropped. -/
def ingest_data (toDatetime : String → Option Int) (toNumeric : String → Option Rat)
    (df : DataFrame) (store : List UsageRecord) (clear_existing : Bool) :
    Except IngestError (Nat × List UsageRecord) :=
  if ¬ REQUIRED_COLUMNS.all (fun c => (df.columns.map (fun s => pyStrip s)).contains c) then
    .error .missingColumns
  else if df.rows.isEmpty then
    .ok (0, store)
  else
    let usernames := df.rows.map (fun r => pyStrip r.username)
    let macs := df.rows.map (fun r => pyStrip r.mac_address)
    match df.rows.mapM (fun r => toDatetime (pyStrip r.start_time)) with
    | none => .error .invalidStartTime
    | some starts =>
      match df.rows.mapM (fun r => parse_usage_time r.usage_time) with
      | .error e => .error e
      | .ok times =>
        let ups := df.rows.map (fun r => toNumeric r.upload)
        let downs := df.rows.map (fun r => toNumeric r.download)
        if ups.contains none ∨ downs.contains none then
          .error .invalidNumeric
        else
          let store1 := if clear_existing then [] else store
          let records :=
            buildRecords usernames macs starts times ups.reduceOption downs.reduceOption
          .ok (records.length, store1 ++ records)

/-! Concrete example inputs used by witnesses and counterexamples. -/

/-- A small concrete store: two users inside the 30-day window of reference
instant 0 and one user whose only record lies outside it. -/
def exampleDb : List UsageRecord :=
  [ { username := "alice", mac_address := "aa:bb", start_time := 0,
      usage_time_seconds := 60, upload_kb := 100, download_kb := 50, total_kb := 150 },
    { username := "bob", mac_address := "cc:dd", start_time := -3 * secondsPerDay,
      usage_time_seconds := 30, upload_kb := 10, download_kb := 5, total_kb := 15 },
    { username := "bob", mac_address := "cc:dd", start_time := -10 * secondsPerDay,
      usage_time_seconds := 30, upload_kb := 1, download_kb := 1, total_kb := 2 },
    { username := "carol", mac_address := "ee:ff", start_time := -40 * secondsPerDay,
      usage_time_seconds := 10, upload_kb := 7, download_kb := 3, total_kb := 10 } ]

/-- The successful first page of `exampleDb` at reference instant 0. -/
def exampleResp : TopUsersResponse := top_users_response exampleDb 0 1 10


/-- The second page (page size 1) of `exampleDb` at reference instant 0. -/
def examplePage2 : TopUsersResponse := top_users_response exampleDb 0 2 1

/-- A one-record store whose upload and download are 0.004 each, so that the
stored total 0.008 rounds to 0.01 while the addends both round to 0. -/
def roundingDb : List UsageRecord :=
  [ { username := "alice", mac_address := "aa:bb", start_time := 0,
      usage_time_seconds := 60, upload_kb := 4/1000, download_kb := 4/1000,
      total_kb := 8/1000 } ]


/-- The user-details response computed from `roundingDb` at instant 0: the
three identical windows show upload and download rounding to 0 while the
total rounds to 0.01. -/
def roundingResp : UserDetailsResponse :=
  { username := "alice", timestamp := 0,
    usage_1_day := { upload_kb := 0, download_kb := 0, total_kb := 1/100, sessions := 1 },
    usage_7_days := { upload_kb := 0, download_kb := 0, total_kb := 1/100, sessions := 1 },
    usage_30_days := { upload_kb := 0, download_kb := 0, total_kb := 1/100, sessions := 1 } }

/-- An empty CSV frame with exactly the required columns and no data rows. -/
def emptyFrame : DataFrame :=
  { columns := ["username", "mac_address", "start_time", "usage_time", "upload", "download"],
    rows := [] }

/-! Lemmas about the rounding function. -/

lemma floor_le_roundHalfEven (q : Rat) : ⌊q⌋ ≤ roundHalfEven q := by
  unfold roundHalfEven
  split_ifs <;> omega

lemma roundHalfEven_le_floor_add_one (q : Rat) : roundHalfEven q ≤ ⌊q⌋ + 1 := by
  unfold roundHalfEven
  split_ifs <;> omega

lemma roundHalfEven_sub_le (q : Rat) : (roundHalfEven q : Rat) - q ≤ 1/2 := by
  have hfr : Int.fract q = q - ⌊q⌋ := (Int.self_sub_floor q).symm
  have h0 : (0 : Rat) ≤ Int.fract q := Int.fract_nonneg q
  unfold roundHalfEven
  split_ifs with h1 h2 h3 <;> push_cast <;> linarith

lemma le_roundHalfEven_sub (q : Rat) : -(1/2) ≤ (roundHalfEven q : Rat) - q := by
  have hfr : Int.fract q = q - ⌊q⌋ := (Int.self_sub_floor q).symm
  have h1 : Int.fract q < 1 := Int.fract_lt_one q
  unfold roundHalfEven
  split_ifs with h2 h3 h4 <;> push_cast <;> linarith

lemma roundHalfEven_mono {x y : Rat} (h : x ≤ y) :
    roundHalfEven x ≤ roundHalfEven y := by
  rcases lt_or_eq_of_le (Int.floor_mono h) with hf | hf
  · calc roundHalfEven x ≤ ⌊x⌋ + 1 := roundHalfEven_le_floor_add_one x
      _ ≤ ⌊y⌋ := by omega
      _ ≤ roundHalfEven y := floor_le_roundHalfEven y
  · have hfx : Int.fract x = x - ⌊x⌋ := (Int.self_sub_floor x).symm
    have hfy : Int.fract y = y - ⌊y⌋ := (Int.self_sub_floor y).symm
    have hfl : Int.fract x ≤ Int.fract y := by
      rw [hfx, hfy, hf]
      linarith
    by_cases hy1 : Int.fract y < 1/2
    · have hx1 : Int.fract x < 1/2 := lt_of_le_of_lt hfl hy1
      unfold roundHalfEven
      rw [if_pos hx1, if_pos hy1, hf]
    · by_cases hy2 : Int.fract y = 1/2
      · by_cases hye : Even ⌊y⌋
        · have hyval : roundHalfEven y = ⌊y⌋ := by
            unfold roundHalfEven
            rw [if_neg hy1, if_pos hy2, if_pos hye]
          by_cases hx1 : Int.fract x < 1/2
          · have hxval : roundHalfEven x = ⌊x⌋ := by
              unfold roundHalfEven
              rw [if_pos hx1]
            omega
          · have hx2 : Int.fract x = 1/2 :=
              le_antisymm (by rw [← hy2]; exact hfl) (le_of_not_lt hx1)
            have hxe : Even ⌊x⌋ := by rw [hf]; exact hye
            have hxval : roundHalfEven x = ⌊x⌋ := by
              unfold roundHalfEven
              rw [if_neg hx1, if_pos hx2, if_pos hxe]
            omega
        · have hyval : roundHalfEven y = ⌊y⌋ + 1 := by
            unfold roundHalfEven
            rw [if_neg hy1, if_pos hy2, if_neg hye]
          have hxub := roundHalfEven_le_floor_add_one x
          omega
      · have hyval : roundHalfEven y = ⌊y⌋ + 1 := by
          unfold roundHalfEven
          rw [if_neg hy1, if_neg hy2]
        have hxub := roundHalfEven_le_floor_add_one x
        omega

lemma round2_mono {x y : Rat} (h : x ≤ y) : round2 x ≤ round2 y := by
  unfold round2
  have h100 : (100 : Rat) * x ≤ 100 * y := by linarith
  have := roundHalfEven_mono h100
  have hc : ((roundHalfEven (100 * x) : Int) : Rat) ≤ ((roundHalfEven (100 * y) : Int) : Rat) := by
    exact_mod_cast this
  linarith

lemma round2_zero : round2 0 = 0 := by
  have : roundHalfEven 0 = 0 := by
    unfold roundHalfEven
    norm_num
  unfold round2
  rw [mul_zero, this]
  norm_num

/-- Rounding each of the three sums independently moves the sum-decomposition
equation by an integer number of hundredths bounded by three halves, hence by
at most one hundredth. -/
lemma round2_add_err (a b : Rat) :
    |round2 (a + b) - (round2 a + round2 b)| ≤ 1/100 := by
  set x := 100 * a with hx
  set y := 100 * b with hy
  have hxy : 100 * (a + b) = x + y := by rw [hx, hy]; ring
  set d : Int := roundHalfEven (x + y) - roundHalfEven x - roundHalfEven y with hd
  have h1 := roundHalfEven_sub_le (x + y)
  have h2 := le_roundHalfEven_sub (x + y)
  have h3 := roundHalfEven_sub_le x
  have h4 := le_roundHalfEven_sub x
  have h5 := roundHalfEven_sub_le y
  have h6 := le_roundHalfEven_sub y
  have hdq : ((d : Int) : Rat) =
      ((roundHalfEven (x + y) : Int) : Rat) - ((roundHalfEven x : Int) : Rat) -
        ((roundHalfEven y : Int) : Rat) := by
    rw [hd]; push_cast; ring
  have hbound : |((d : Int) : Rat)| ≤ 3/2 := by
    rw [abs_le, hdq]
    constructor <;> linarith
  have hint : |d| ≤ 1 := by
    by_contra hcon
    push_neg at hcon
    have h2le : (2 : Int) ≤ |d| := hcon
    have : (2 : Rat) ≤ |((d : Int) : Rat)| := by
      rw [← Int.cast_abs]
      exact_mod_cast h2le
    linarith
  have hintq : |((d : Int) : Rat)| ≤ 1 := by
    rw [← Int.cast_abs]
    exact_mod_cast hint
  unfold round2
  rw [hxy]
  have : (roundHalfEven (x + y) : Rat) / 100 -
      ((roundHalfEven x : Rat) / 100 + (roundHalfEven y : Rat) / 100) =
      ((d : Int) : Rat) / 100 := by
    rw [hdq]; ring
  rw [this, abs_div, abs_of_pos (by norm_num : (0:Rat) < 100)]
  rw [div_le_div_iff₀ (by norm_num) (by norm_num)]
  linarith

/-! Lemmas about the conditional window aggregates. -/

lemma sum_map_add (l : List UsageRecord) (f g : UsageRecord → Rat) :
    (l.map (fun r => f r + g r)).sum = (l.map f).sum + (l.map g).sum := by
  induction l with
  | nil => simp
  | cons a t ih =>
    simp only [List.map_cons, List.sum_cons, ih]
    ring

lemma condSum_mono_cutoff {recs : List UsageRecord} {c1 c2 : Int} (h : c2 ≤ c1)
    (v : UsageRecord → Rat) (hv : ∀ r ∈ recs, 0 ≤ v r) :
    condSum recs c1 v ≤ condSum recs c2 v := by
  unfold condSum
  apply List.sum_le_sum
  intro r hr
  by_cases h1 : c1 ≤ r.start_time
  · rw [if_pos h1, if_pos (le_trans h h1)]
  · rw [if_neg h1]
    by_cases h2 : c2 ≤ r.start_time
    · rw [if_pos h2]
      exact hv r hr
    · rw [if_neg h2]

lemma condSum_le_sum {recs : List UsageRecord} (c : Int) (v : UsageRecord → Rat)
    (hv : ∀ r ∈ recs, 0 ≤ v r) :
    condSum recs c v ≤ (recs.map v).sum := by
  unfold condSum
  apply List.sum_le_sum
  intro r hr
  by_cases h1 : c ≤ r.start_time
  · rw [if_pos h1]
  · rw [if_neg h1]
    exact hv r hr

lemma condCount_mono_cutoff {recs : List UsageRecord} {c1 c2 : Int} (h : c2 ≤ c1) :
    condCount recs c1 ≤ condCount recs c2 := by
  unfold condCount
  apply List.sum_le_sum
  intro r hr
  by_cases h1 : c1 ≤ r.start_time
  · rw [if_pos h1, if_pos (le_trans h h1)]
  · rw [if_neg h1]
    exact Nat.zero_le _

lemma condCount_le_length (recs : List UsageRecord) (c : Int) :
    condCount recs c ≤ recs.length := by
  unfold condCount
  induction recs with
  | nil => simp
  | cons a t ih =>
    simp only [List.map_cons, List.sum_cons, List.length_cons]
    by_cases h1 : c ≤ a.start_time
    · rw [if_pos h1]
      omega
    · rw [if_neg h1]
      omega

lemma windowRecords_subset {db : List UsageRecord} {u : String} {R : Int} {r : UsageRecord}
    (h : r ∈ windowRecords db u R) : r ∈ db :=
  List.mem_of_mem_filter (List.mem_of_mem_filter h)

/-! Definitional projections of `aggRow`. -/

lemma aggRow_sessions_1d (db : List UsageRecord) (u : String) (R : Int) :
    (aggRow db u R).sessions_1d = condCount (windowRecords db u R) (R - 1 * secondsPerDay) := rfl

lemma aggRow_sessions_7d (db : List UsageRecord) (u : String) (R : Int) :
    (aggRow db u R).sessions_7d = condCount (windowRecords db u R) (R - 7 * secondsPerDay) := rfl

lemma aggRow_sessions_30d (db : List UsageRecord) (u : String) (R : Int) :
    (aggRow db u R).sessions_30d = (windowRecords db u R).length := rfl

lemma aggRow_total_1d (db : List UsageRecord) (u : String) (R : Int) :
    (aggRow db u R).total_1d =
      condSum (windowRecords db u R) (R - 1 * secondsPerDay) (fun r => r.total_kb) := rfl

lemma aggRow_total_7d (db : List UsageRecord) (u : String) (R : Int) :
    (aggRow db u R).total_7d =
      condSum (windowRecords db u R) (R - 7 * secondsPerDay) (fun r => r.total_kb) := rfl

lemma aggRow_total_30d (db : List UsageRecord) (u : String) (R : Int) :
    (aggRow db u R).total_30d = ((windowRecords db u R).map (fun r => r.total_kb)).sum := rfl

lemma aggRow_upload_1d (db : List UsageRecord) (u : String) (R : Int) :
    (aggRow db u R).upload_1d =
      condSum (windowRecords db u R) (R - 1 * secondsPerDay) (fun r => r.upload_kb) := rfl

lemma aggRow_upload_7d (db : List UsageRecord) (u : String) (R : Int) :
    (aggRow db u R).upload_7d =
      condSum (windowRecords db u R) (R - 7 * secondsPerDay) (fun r => r.upload_kb) := rfl

lemma aggRow_upload_30d (db : List UsageRecord) (u : String) (R : Int) :
    (aggRow db u R).upload_30d = ((windowRecords db u R).map (fun r => r.upload_kb)).sum := rfl

lemma aggRow_download_1d (db : List UsageRecord) (u : String) (R : Int) :
    (aggRow db u R).download_1d =
      condSum (windowRecords db u R) (R - 1 * secondsPerDay) (fun r => r.download_kb) := rfl

lemma aggRow_download_7d (db : List UsageRecord) (u : String) (R : Int) :
    (aggRow db u R).download_7d =
      condSum (windowRecords db u R) (R - 7 * secondsPerDay) (fun r => r.download_kb) := rfl

lemma aggRow_download_30d (db : List UsageRecord) (u : String) (R : Int) :
    (aggRow db u R).download_30d = ((windowRecords db u R).map (fun r => r.download_kb)).sum := rfl

/-- The 1-day cutoff is at or after the 7-day cutoff. -/
lemma cutoff_7_le_1 (R : Int) : R - 7 * secondsPerDay ≤ R - 1 * secondsPerDay := by
  unfold secondsPerDay
  omega

/-- Session counts of an aggregation row are nested across windows. -/
lemma aggRow_sessions_nested (db : List UsageRecord) (u : String) (R : Int) :
    (aggRow db u R).sessions_1d ≤ (aggRow db u R).sessions_7d ∧
    (aggRow db u R).sessions_7d ≤ (aggRow db u R).sessions_30d := by
  rw [aggRow_sessions_1d, aggRow_sessions_7d, aggRow_sessions_30d]
  exact ⟨condCount_mono_cutoff (cutoff_7_le_1 R), condCount_le_length _ _⟩

/-- With non-negative stored totals, the total-kb sums of an aggregation row
are nested across windows. -/
lemma aggRow_totals_nested (db : List UsageRecord) (u : String) (R : Int)
    (hkb : ∀ r ∈ db, 0 ≤ r.total_kb) :
    (aggRow db u R).total_1d ≤ (aggRow db u R).total_7d ∧
    (aggRow db u R).total_7d ≤ (aggRow db u R).total_30d := by
  have hv : ∀ r ∈ windowRecords db u R, 0 ≤ r.total_kb :=
    fun r hr => hkb r (windowRecords_subset hr)
  rw [aggRow_total_1d, aggRow_total_7d, aggRow_total_30d]
  exact ⟨condSum_mono_cutoff (cutoff_7_le_1 R) _ hv, condSum_le_sum _ _ hv⟩

/-- With the stored invariant `total_kb = upload_kb + download_kb`, the exact
(un-rounded) aggregates decompose in every window. -/
lemma aggRow_decomposition (db : List UsageRecord) (u : String) (R : Int)
    (hinv : ∀ r ∈ db, r.total_kb = r.upload_kb + r.download_kb) :
    (aggRow db u R).total_1d = (aggRow db u R).upload_1d + (aggRow db u R).download_1d ∧
    (aggRow db u R).total_7d = (aggRow db u R).upload_7d + (aggRow db u R).download_7d ∧
    (aggRow db u R).total_30d = (aggRow db u R).upload_30d + (aggRow db u R).download_30d := by
  have hrec : ∀ r ∈ windowRecords db u R, r.total_kb = r.upload_kb + r.download_kb :=
    fun r hr => hinv r (windowRecords_subset hr)
  refine ⟨?_, ?_, ?_⟩
  · rw [aggRow_total_1d, aggRow_upload_1d, aggRow_download_1d]
    unfold condSum
    rw [← sum_map_add]
    apply congrArg
    apply List.map_congr_left
    intro r hr
    by_cases h1 : R - 1 * secondsPerDay ≤ r.start_time
    · rw [if_pos h1, if_pos h1, if_pos h1]
      exact hrec r hr
    · rw [if_neg h1, if_neg h1, if_neg h1, add_zero]
  · rw [aggRow_total_7d, aggRow_upload_7d, aggRow_download_7d]
    unfold condSum
    rw [← sum_map_add]
    apply congrArg
    apply List.map_congr_left
    intro r hr
    by_cases h1 : R - 7 * secondsPerDay ≤ r.start_time
    · rw [if_pos h1, if_pos h1, if_pos h1]
      exact hrec r hr
    · rw [if_neg h1, if_neg h1, if_neg h1, add_zero]
  · rw [aggRow_total_30d, aggRow_upload_30d, aggRow_download_30d]
    rw [← sum_map_add]
    apply congrArg
    apply List.map_congr_left
    intro r hr
    exact hrec r hr

/-! Plumbing lemmas for the top-users response. -/

lemma get_top_users_ok (db : List UsageRecord) (R page : Int) {n : Int} (hn : n ≠ 0) :
    get_top_users db R page n = .ok (top_users_response db R page n) := by
  unfold get_top_users
  rw [if_neg]
  intro hcon
  exact hn hcon.2

lemma top_users_response_data (db : List UsageRecord) (R page n : Int) :
    (top_users_response db R page n).data =
      (((sortedRows db R).drop (((page - 1) * n).toNat)).take n.toNat).enum.map
        (mkEntry ((page - 1) * n)) := rfl

lemma top_users_response_page (db : List UsageRecord) (R page n : Int) :
    (top_users_response db R page n).page = page := rfl

lemma top_users_response_per_page (db : List UsageRecord) (R page n : Int) :
    (top_users_response db R page n).per_page = n := rfl

lemma top_users_response_total_users (db : List UsageRecord) (R page n : Int) :
    (top_users_response db R page n).total_users = total_users_count db R := rfl

lemma top_users_response_total_pages (db : List UsageRecord) (R page n : Int) :
    (top_users_response db R page n).total_pages =
      (if 0 < total_users_count db R
        then ⌈(total_users_count db R : Rat) / (n : Rat)⌉ else 0) := rfl

lemma mkEntry_usage_1_day (offset : Int) (p : Nat × AggRow) :
    (mkEntry offset p).usage_1_day = (row_to_usage_periods p.2).usage_1_day := rfl

lemma mkEntry_usage_7_days (offset : Int) (p : Nat × AggRow) :
    (mkEntry offset p).usage_7_days = (row_to_usage_periods p.2).usage_7_days := rfl

lemma mkEntry_usage_30_days (offset : Int) (p : Nat × AggRow) :
    (mkEntry offset p).usage_30_days = (row_to_usage_periods p.2).usage_30_days := rfl

lemma mkEntry_rank (offset : Int) (p : Nat × AggRow) :
    (mkEntry offset p).rank = offset + p.1 + 1 := rfl

/-- Every entry of a successful top-users page carries the three rounded
windows of the aggregation row of some user. -/
lemma mem_top_users_data {db : List UsageRecord} {R page n : Int} {resp : TopUsersResponse}
    (h : get_top_users db R page n = .ok resp) {e : TopUserEntry} (he : e ∈ resp.data) :
    ∃ u : String,
      e.usage_1_day = (row_to_usage_periods (aggRow db u R)).usage_1_day ∧
      e.usage_7_days = (row_to_usage_periods (aggRow db u R)).usage_7_days ∧
      e.usage_30_days = (row_to_usage_periods (aggRow db u R)).usage_30_days := by
  have hresp : resp = top_users_response db R page n := by
    unfold get_top_users at h
    by_cases hc : 0 < total_users_count db R ∧ n = 0
    · rw [if_pos hc] at h
      exact absurd h (by simp)
    · rw [if_neg hc] at h
      exact (Except.ok.inj h).symm
  rw [hresp, top_users_response_data] at he
  obtain ⟨p, hp, hpe⟩ := List.mem_map.1 he
  have hsnd : p.2 ∈ ((sortedRows db R).drop (((page - 1) * n).toNat)).take n.toNat := by
    have hmem := List.mem_map_of_mem Prod.snd hp
    rwa [List.enum_map_snd] at hmem
  have hsorted : p.2 ∈ sortedRows db R :=
    List.mem_of_mem_drop (List.mem_of_mem_take hsnd)
  have hrows : p.2 ∈ (windowUsers db R).map (fun u => aggRow db u R) := by
    unfold sortedRows at hsorted
    exact (List.mem_insertionSort byTotalDesc).1 hsorted
  obtain ⟨u, _, hu⟩ := List.mem_map.1 hrows
  refine ⟨u, ?_, ?_, ?_⟩
  · rw [← hpe, mkEntry_usage_1_day, hu]
  · rw [← hpe, mkEntry_usage_7_days, hu]
  · rw [← hpe, mkEntry_usage_30_days, hu]

/-- A found user-details response carries either the all-zero windows or the
three rounded windows of the user-s aggregation row. -/
lemma user_details_periods {db : List UsageRecord} {u : String} {T : Int}
    {resp : UserDetailsResponse} (h : get_user_details db u T = some resp) :
    (resp.usage_1_day = { upload_kb := 0, download_kb := 0, total_kb := 0, sessions := 0 } ∧
     resp.usage_7_days = { upload_kb := 0, download_kb := 0, total_kb := 0, sessions := 0 } ∧
     resp.usage_30_days = { upload_kb := 0, download_kb := 0, total_kb := 0, sessions := 0 }) ∨
    (resp.usage_1_day = (row_to_usage_periods (aggRow db u T)).usage_1_day ∧
     resp.usage_7_days = (row_to_usage_periods (aggRow db u T)).usage_7_days ∧
     resp.usage_30_days = (row_to_usage_periods (aggRow db u T)).usage_30_days) := by
  unfold get_user_details at h
  by_cases hfind : (db.find? (fun r => decide (r.username = u))).isSome
  · rw [if_pos hfind] at h
    by_cases hempty : (windowRecords db u T).isEmpty
    · rw [if_pos hempty] at h
      replace h := Option.some.inj h
      left
      rw [← h]
      exact ⟨rfl, rfl, rfl⟩
    · rw [if_neg hempty] at h
      replace h := Option.some.inj h
      right
      rw [← h]
      exact ⟨rfl, rfl, rfl⟩
  · rw [if_neg hfind] at h
    exact absurd h (by simp)

/-! Projections of `row_to_usage_periods`. -/

lemma periods_1_upload (row : AggRow) :
    (row_to_usage_periods row).usage_1_day.upload_kb = round2 row.upload_1d := rfl

lemma periods_1_download (row : AggRow) :
    (row_to_usage_periods row).usage_1_day.download_kb = round2 row.download_1d := rfl

lemma periods_1_total (row : AggRow) :
    (row_to_usage_periods row).usage_1_day.total_kb = round2 row.total_1d := rfl

lemma periods_1_sessions (row : AggRow) :
    (row_to_usage_periods row).usage_1_day.sessions = row.sessions_1d := rfl

lemma periods_7_upload (row : AggRow) :
    (row_to_usage_periods row).usage_7_days.upload_kb = round2 row.upload_7d := rfl

lemma periods_7_download (row : AggRow) :
    (row_to_usage_periods row).usage_7_days.download_kb = round2 row.download_7d := rfl

lemma periods_7_total (row : AggRow) :
    (row_to_usage_periods row).usage_7_days.total_kb = round2 row.total_7d := rfl

lemma periods_7_sessions (row : AggRow) :
    (row_to_usage_periods row).usage_7_days.sessions = row.sessions_7d := rfl

lemma periods_30_upload (row : AggRow) :
    (row_to_usage_periods row).usage_30_days.upload_kb = round2 row.upload_30d := rfl

lemma periods_30_download (row : AggRow) :
    (row_to_usage_periods row).usage_30_days.download_kb = round2 row.download_30d := rfl

lemma periods_30_total (row : AggRow) :
    (row_to_usage_periods row).usage_30_days.total_kb = round2 row.total_30d := rfl

lemma periods_30_sessions (row : AggRow) :
    (row_to_usage_periods row).usage_30_days.sessions = row.sessions_30d := rfl

/-- The nesting property holds for the three rounded windows of any
aggregation row over a store with non-negative totals. -/
lemma row_periods_nested (db : List UsageRecord) (u : String) (R : Int)
    (hkb : ∀ r ∈ db, 0 ≤ r.total_kb) :
    ((row_to_usage_periods (aggRow db u R)).usage_1_day.sessions ≤
       (row_to_usage_periods (aggRow db u R)).usage_7_days.sessions ∧
     (row_to_usage_periods (aggRow db u R)).usage_7_days.sessions ≤
       (row_to_usage_periods (aggRow db u R)).usage_30_days.sessions) ∧
    ((row_to_usage_periods (aggRow db u R)).usage_1_day.total_kb ≤
       (row_to_usage_periods (aggRow db u R)).usage_7_days.total_kb ∧
     (row_to_usage_periods (aggRow db u R)).usage_7_days.total_kb ≤
       (row_to_usage_periods (aggRow db u R)).usage_30_days.total_kb) := by
  obtain ⟨hs1, hs7⟩ := aggRow_sessions_nested db u R
  obtain ⟨ht1, ht7⟩ := aggRow_totals_nested db u R hkb
  rw [periods_1_sessions, periods_7_sessions, periods_30_sessions,
    periods_1_total, periods_7_total, periods_30_total]
  exact ⟨⟨hs1, hs7⟩, ⟨round2_mono ht1, round2_mono ht7⟩⟩

/-- C1: for every user appearing in a result and every reference instant, the
returned windows are nested: the 1-day sessions count is at most the 7-day
count, which is at most the 30-day count, and likewise for the rounded
total_kb sums, over any store whose records have non-negative totals (the
stored data-model invariant). -/
theorem claim_nested_windows (db : List UsageRecord) (R page n : Int) (u : String) (T : Int)
    (hkb : ∀ r ∈ db, 0 ≤ r.total_kb) :
    (∀ resp, get_top_users db R page n = .ok resp → ∀ e ∈ resp.data,
      (e.usage_1_day.sessions ≤ e.usage_7_days.sessions ∧
       e.usage_7_days.sessions ≤ e.usage_30_days.sessions) ∧
      (e.usage_1_day.total_kb ≤ e.usage_7_days.total_kb ∧
       e.usage_7_days.total_kb ≤ e.usage_30_days.total_kb)) ∧
    (∀ dresp, get_user_details db u T = some dresp →
      (dresp.usage_1_day.sessions ≤ dresp.usage_7_days.sessions ∧
       dresp.usage_7_days.sessions ≤ dresp.usage_30_days.sessions) ∧
      (dresp.usage_1_day.total_kb ≤ dresp.usage_7_days.total_kb ∧
       dresp.usage_7_days.total_kb ≤ dresp.usage_30_days.total_kb)) := by
  constructor
  · intro resp h e he
    obtain ⟨w, h1, h7, h30⟩ := mem_top_users_data h he
    rw [h1, h7, h30]
    exact row_periods_nested db w R hkb
  · intro dresp h
    rcases user_details_periods h with ⟨h1, h7, h30⟩ | ⟨h1, h7, h30⟩
    · rw [h1, h7, h30]
      exact ⟨⟨le_refl _, le_refl _⟩, ⟨le_refl _, le_refl _⟩⟩
    · rw [h1, h7, h30]
      exact row_periods_nested db u T hkb

/-- Membership in the 30-day window of the store. -/
lemma mem_windowDb {db : List UsageRecord} {R : Int} {r : UsageRecord} :
    r ∈ windowDb db R ↔
      r ∈ db ∧ (R - 30 * secondsPerDay ≤ r.start_time ∧ r.start_time ≤ R) := by
  unfold windowDb
  rw [List.mem_filter]
  simp only [decide_eq_true_eq]

/-- C2 (amended): `get_top_users` performs no `per_page` validation of its
own: called with `per_page = 0` it reaches the page-count division and fails
with `ZeroDivisionError` whenever at least one user lies in the 30-day
window; only when `total_users = 0` is the division skipped, and a
well-formed response is returned. -/
theorem claim_per_page_zero_division (db : List UsageRecord) (R page : Int) :
    (0 < total_users_count db R →
      get_top_users db R page 0 = .error .zeroDivision) ∧
    (total_users_count db R = 0 →
      get_top_users db R page 0 = .ok (top_users_response db R page 0)) := by
  constructor
  · intro h
    unfold get_top_users
    rw [if_pos ⟨h, rfl⟩]
  · intro h
    unfold get_top_users
    rw [if_neg]
    intro hcon
    rw [h] at hcon
    exact absurd hcon.1 (by omega)

/-- C3: the single-user query returns `none` exactly when no record anywhere
carries the username, and a user having records but none inside the 30-day
window ending at `T` yields a found result whose three windows are all
zero. -/
theorem claim_user_details_found (db : List UsageRecord) (u : String) (T : Int) :
    (get_user_details db u T = none ↔ ∀ r ∈ db, r.username ≠ u) ∧
    ((∃ r ∈ db, r.username = u) →
      (∀ r ∈ db, r.username = u →
        ¬(T - 30 * secondsPerDay ≤ r.start_time ∧ r.start_time ≤ T)) →
      get_user_details db u T =
        some { username := u, timestamp := T,
               usage_1_day := { upload_kb := 0, download_kb := 0, total_kb := 0, sessions := 0 },
               usage_7_days := { upload_kb := 0, download_kb := 0, total_kb := 0, sessions := 0 },
               usage_30_days := { upload_kb := 0, download_kb := 0, total_kb := 0, sessions := 0 } }) := by
  constructor
  · constructor
    · intro h
      intro r hr
      by_cases hfind : (db.find? (fun x => decide (x.username = u))).isSome
      · exfalso
        unfold get_user_details at h
        rw [if_pos hfind] at h
        by_cases hempty : (windowRecords db u T).isEmpty
        · rw [if_pos hempty] at h
          simp at h
        · rw [if_neg hempty] at h
          simp at h
      · have hnone : db.find? (fun x => decide (x.username = u)) = none := by
          cases hcase : db.find? (fun x => decide (x.username = u)) with
          | none => rfl
          | some w =>
            rw [hcase] at hfind
            exact absurd rfl hfind
        rw [List.find?_eq_none] at hnone
        simpa using hnone r hr
    · intro hall
      unfold get_user_details
      have hnone : db.find? (fun r => decide (r.username = u)) = none := by
        rw [List.find?_eq_none]
        intro r hr
        simpa using hall r hr
      rw [if_neg]
      rw [hnone]
      simp
  · rintro ⟨r0, hr0, hu0⟩ hmiss
    unfold get_user_details
    have hfind : (db.find? (fun r => decide (r.username = u))).isSome := by
      rw [List.find?_isSome]
      exact ⟨r0, hr0, by simpa using hu0⟩
    rw [if_pos hfind]
    have hnil : windowRecords db u T = [] := by
      unfold windowRecords
      rw [List.filter_eq_nil_iff]
      intro r hr
      obtain ⟨hrdb, hwin⟩ := mem_windowDb.1 hr
      simp only [decide_eq_true_eq]
      intro hname
      exact hmiss r hrdb hname hwin
    have hempty : (windowRecords db u T).isEmpty := by
      rw [hnil]
      rfl
    rw [if_pos hempty]

/-- The three rounded windows of an aggregation row satisfy the
sum-decomposition equation up to one hundredth. -/
lemma row_periods_err (db : List UsageRecord) (u : String) (R : Int)
    (hinv : ∀ r ∈ db, r.total_kb = r.upload_kb + r.download_kb) :
    |(row_to_usage_periods (aggRow db u R)).usage_1_day.total_kb -
      ((row_to_usage_periods (aggRow db u R)).usage_1_day.upload_kb +
       (row_to_usage_periods (aggRow db u R)).usage_1_day.download_kb)| ≤ 1/100 ∧
    |(row_to_usage_periods (aggRow db u R)).usage_7_days.total_kb -
      ((row_to_usage_periods (aggRow db u R)).usage_7_days.upload_kb +
       (row_to_usage_periods (aggRow db u R)).usage_7_days.download_kb)| ≤ 1/100 ∧
    |(row_to_usage_periods (aggRow db u R)).usage_30_days.total_kb -
      ((row_to_usage_periods (aggRow db u R)).usage_30_days.upload_kb +
       (row_to_usage_periods (aggRow db u R)).usage_30_days.download_kb)| ≤ 1/100 := by
  obtain ⟨h1, h7, h30⟩ := aggRow_decomposition db u R hinv
  rw [periods_1_total, periods_1_upload, periods_1_download,
    periods_7_total, periods_7_upload, periods_7_download,
    periods_30_total, periods_30_upload, periods_30_download, h1, h7, h30]
  exact ⟨round2_add_err _ _, round2_add_err _ _, round2_add_err _ _⟩

/-- C4 (amended): the un-rounded window aggregates decompose exactly as
`total = upload + download` (propagated from the stored invariant), and in
every returned UsagePeriod the independently rounded fields satisfy the
equation up to at most 0.01. -/
theorem claim_sum_decomposition (db : List UsageRecord) (R page n : Int)
    (u : String) (T : Int)
    (hinv : ∀ r ∈ db, r.total_kb = r.upload_kb + r.download_kb) :
    (∀ (v : String) (S : Int),
      (aggRow db v S).total_1d = (aggRow db v S).upload_1d + (aggRow db v S).download_1d ∧
      (aggRow db v S).total_7d = (aggRow db v S).upload_7d + (aggRow db v S).download_7d ∧
      (aggRow db v S).total_30d = (aggRow db v S).upload_30d + (aggRow db v S).download_30d) ∧
    (∀ resp, get_top_users db R page n = .ok resp → ∀ e ∈ resp.data,
      |e.usage_1_day.total_kb - (e.usage_1_day.upload_kb + e.usage_1_day.download_kb)| ≤ 1/100 ∧
      |e.usage_7_days.total_kb - (e.usage_7_days.upload_kb + e.usage_7_days.download_kb)| ≤ 1/100 ∧
      |e.usage_30_days.total_kb - (e.usage_30_days.upload_kb + e.usage_30_days.download_kb)| ≤ 1/100) ∧
    (∀ dresp, get_user_details db u T = some dresp →
      |dresp.usage_1_day.total_kb -
        (dresp.usage_1_day.upload_kb + dresp.usage_1_day.download_kb)| ≤ 1/100 ∧
      |dresp.usage_7_days.total_kb -
        (dresp.usage_7_days.upload_kb + dresp.usage_7_days.download_kb)| ≤ 1/100 ∧
      |dresp.usage_30_days.total_kb -
        (dresp.usage_30_days.upload_kb + dresp.usage_30_days.download_kb)| ≤ 1/100) := by
  refine ⟨fun v S => aggRow_decomposition db v S hinv, ?_, ?_⟩
  · intro resp h e he
    obtain ⟨w, h1, h7, h30⟩ := mem_top_users_data h he
    rw [h1, h7, h30]
    exact row_periods_err db w R hinv
  · intro dresp h
    rcases user_details_periods h with ⟨h1, h7, h30⟩ | ⟨h1, h7, h30⟩
    · rw [h1, h7, h30]
      norm_num
    · rw [h1, h7, h30]
      exact row_periods_err db u T hinv

/-- Ceiling of an exact rational division of naturals equals the rounded-up
integer division. -/
lemma nat_ceil_div (a b : Nat) (ha : 0 < a) (hb : 0 < b) :
    ⌈(a : Rat) / (b : Rat)⌉ = (((a + b - 1) / b : Nat) : Int) := by
  set q := (a + b - 1) / b with hq
  have hub : a ≤ q * b := by
    by_contra hcon
    push_neg at hcon
    have hstep : (q + 1) * b ≤ a + b - 1 := by
      have hexp : (q + 1) * b = q * b + b := by ring
      omega
    have hge := (Nat.le_div_iff_mul_le hb).2 hstep
    rw [← hq] at hge
    omega
  have hlb : q * b ≤ a + b - 1 := by
    have hmul := Nat.div_mul_le_self (a + b - 1) b
    rw [← hq] at hmul
    omega
  have hbQ : (0 : Rat) < (b : Rat) := by exact_mod_cast hb
  rw [Int.ceil_eq_iff]
  constructor
  · rw [lt_div_iff₀ hbQ]
    have hq1 : q * b < a + b := by omega
    have hc : ((q * b : Nat) : Rat) < ((a + b : Nat) : Rat) := by exact_mod_cast hq1
    push_cast at hc ⊢
    nlinarith
  · rw [div_le_iff₀ hbQ]
    have hc : ((a : Nat) : Rat) ≤ ((q * b : Nat) : Rat) := by exact_mod_cast hub
    push_cast at hc ⊢
    linarith

/-- C5: `total_users` counts the distinct usernames having at least one
record in the 30-day window ending at `R`, and `total_pages` is the rounded-up
integer division of that count by `per_page` (with the convention that an
empty universe yields zero pages). -/
theorem claim_total_users_and_pages (db : List UsageRecord) (R page : Int) (n : Int)
    (hn : 1 ≤ n) (resp : TopUsersResponse)
    (h : get_top_users db R page n = .ok resp) :
    resp.total_users = ((windowDb db R).map (fun r => r.username)).toFinset.card ∧
    (∀ v : String, v ∈ ((windowDb db R).map (fun r => r.username)).toFinset ↔
      ∃ r ∈ db, r.username = v ∧
        R - 30 * secondsPerDay ≤ r.start_time ∧ r.start_time ≤ R) ∧
    resp.total_pages = (((resp.total_users + n.toNat - 1) / n.toNat : Nat) : Int) := by
  have hne : n ≠ 0 := by omega
  have hresp : resp = top_users_response db R page n := by
    rw [get_top_users_ok db R page hne] at h
    exact (Except.ok.inj h).symm
  subst hresp
  refine ⟨?_, ?_, ?_⟩
  · rw [top_users_response_total_users]
    unfold total_users_count windowUsers
    rw [List.card_toFinset]
  · intro v
    rw [List.mem_toFinset, List.mem_map]
    constructor
    · rintro ⟨r, hr, hv⟩
      obtain ⟨hrdb, hw⟩ := mem_windowDb.1 hr
      exact ⟨r, hrdb, hv, hw⟩
    · rintro ⟨r, hrdb, hv, hw⟩
      exact ⟨r, mem_windowDb.2 ⟨hrdb, hw⟩, hv⟩
  · rw [top_users_response_total_pages, top_users_response_total_users]
    by_cases htu : 0 < total_users_count db R
    · rw [if_pos htu]
      have hnn : 0 < n.toNat := by omega
      have hcast : ((n.toNat : Nat) : Rat) = (n : Rat) := by
        have hcast0 : ((n.toNat : Nat) : Int) = n := Int.toNat_of_nonneg (by omega)
        exact_mod_cast hcast0
      rw [← hcast]
      exact nat_ceil_div (total_users_count db R) n.toNat htu hnn
    · rw [if_neg htu]
      have h0 : total_users_count db R = 0 := by omega
      rw [h0]
      have hdiv : (0 + n.toNat - 1) / n.toNat = 0 := Nat.div_eq_of_lt (by omega)
      rw [hdiv]
      rfl

/-- A successful result of `get_top_users` is the computed response. -/
lemma top_users_ok_resp {db : List UsageRecord} {R page n : Int} {resp : TopUsersResponse}
    (h : get_top_users db R page n = .ok resp) :
    resp = top_users_response db R page n := by
  unfold get_top_users at h
  by_cases hc : 0 < total_users_count db R ∧ n = 0
  · rw [if_pos hc] at h
    exact absurd h (by simp)
  · rw [if_neg hc] at h
    exact (Except.ok.inj h).symm

/-- The entry at position `i` of a top-users page carries
`rank = offset + i + 1`. -/
lemma top_users_data_rank {db : List UsageRecord} {R page n : Int}
    {resp : TopUsersResponse} (h : get_top_users db R page n = .ok resp)
    {i : Nat} {e : TopUserEntry} (he : resp.data[i]? = some e) :
    e.rank = (page - 1) * n + i + 1 := by
  rw [top_users_ok_resp h, top_users_response_data] at he
  obtain ⟨hlt, hget⟩ := List.getElem?_eq_some_iff.1 he
  rw [List.getElem_map, List.getElem_enum] at hget
  rw [← hget, mkEntry_rank]

/-- C6: every entry of a top-users page carries the global rank
`(page - 1) * per_page + position + 1`; in particular a non-empty page's
first entry has rank `(page - 1) * per_page + 1`. -/
theorem claim_rank_global (db : List UsageRecord) (R page n : Int)
    (hp : 1 ≤ page) (hn : 1 ≤ n) (resp : TopUsersResponse)
    (h : get_top_users db R page n = .ok resp) :
    (∀ (i : Nat) (e : TopUserEntry), resp.data[i]? = some e →
      e.rank = (page - 1) * n + i + 1) ∧
    (∀ e : TopUserEntry, resp.data.head? = some e → e.rank = (page - 1) * n + 1) := by
  constructor
  · intro i e he
    exact top_users_data_rank h he
  · intro e he
    rw [List.head?_eq_getElem?] at he
    have h0 := top_users_data_rank h he
    simpa using h0

/-- C10: a top-users page holds at most `per_page` entries, and their ranks
are the consecutive integers starting at `(page - 1) * per_page + 1`. -/
theorem claim_page_size_and_ranks (db : List UsageRecord) (R page n : Int)
    (hp : 1 ≤ page) (hn : 1 ≤ n) (resp : TopUsersResponse)
    (h : get_top_users db R page n = .ok resp) :
    resp.data.length ≤ n.toNat ∧
    (∀ (i : Nat) (e : TopUserEntry), resp.data[i]? = some e →
      e.rank = (page - 1) * n + i + 1) := by
  constructor
  · rw [top_users_ok_resp h, top_users_response_data]
    rw [List.length_map, List.enum_length, List.length_take]
    exact min_le_left _ _
  · intro i e he
    exact top_users_data_rank h he

/-- The ordered aggregation rows are one per distinct user in the window. -/
lemma sortedRows_length (db : List UsageRecord) (R : Int) :
    (sortedRows db R).length = total_users_count db R := by
  unfold sortedRows total_users_count
  rw [List.length_insertionSort, List.length_map]

/-- C8: a page whose offset lies at or beyond the universe of users returns a
well-formed result with empty data and the page number echoed unchanged, and
the engine run against an empty store returns a well-formed all-zero result
rather than an error. -/
theorem claim_beyond_page_empty (db : List UsageRecord) (R page n : Int)
    (hp : 1 ≤ page) (hn : 1 ≤ n)
    (hbeyond : total_users_count db R ≤ ((page - 1) * n).toNat) :
    (∃ resp, get_top_users db R page n = .ok resp ∧
      resp.data = [] ∧ resp.page = page) ∧
    (∃ resp0, get_top_users ([] : List UsageRecord) R page n = .ok resp0 ∧
      resp0.data = [] ∧ resp0.total_users = 0 ∧ resp0.total_pages = 0 ∧
      resp0.page = page) := by
  constructor
  · refine ⟨top_users_response db R page n, get_top_users_ok db R page (by omega), ?_,
      top_users_response_page db R page n⟩
    rw [top_users_response_data]
    have hdrop : (sortedRows db R).drop (((page - 1) * n).toNat) = [] :=
      List.drop_eq_nil_of_le (by rw [sortedRows_length]; exact hbeyond)
    rw [hdrop]
    simp
  · refine ⟨top_users_response [] R page n, get_top_users_ok [] R page (by omega), ?_,
      rfl, rfl, top_users_response_page [] R page n⟩
    rw [top_users_response_data]
    have hnil : sortedRows ([] : List UsageRecord) R = [] := rfl
    rw [hnil, List.drop_nil]
    simp

/-- C9: ingesting a CSV that has the required columns but no data rows
returns 0 and leaves the store untouched, even with `clear_existing = true`:
the empty-input early return happens before the delete. -/
theorem claim_ingest_empty_noop (toDatetime : String → Option Int)
    (toNumeric : String → Option Rat) (df : DataFrame) (store : List UsageRecord)
    (clear_existing : Bool)
    (hcols : REQUIRED_COLUMNS.all
      (fun c => (df.columns.map (fun s => pyStrip s)).contains c) = true)
    (hrows : df.rows = []) :
    ingest_data toDatetime toNumeric df store clear_existing = .ok (0, store) := by
  unfold ingest_data
  rw [if_neg (not_not_intro hcols)]
  have h2 : df.rows.isEmpty = true := by
    rw [hrows]
    rfl
  rw [if_pos h2]

/-! Lemmas for the concatenated listing (C7). -/

/-- Re-enumerating from `m` instead of 0 shifts the rank offset by `m`. -/
lemma enumFrom_map_mkEntry (l : List AggRow) : ∀ (m : Nat) (off : Int),
    (l.enumFrom m).map (mkEntry off) = l.enum.map (mkEntry (off + (m : Int))) := by
  induction l with
  | nil =>
    intro m off
    simp
  | cons a t ih =>
    intro m off
    rw [List.enumFrom_cons, List.enum_cons, List.map_cons, List.map_cons]
    have hhead : mkEntry off (m, a) = mkEntry (off + (m : Int)) (0, a) := by
      simp [mkEntry]
    rw [hhead, ih (m + 1) off, ih 1 (off + (m : Int))]
    congr 3
    push_cast
    ring_nf

lemma toNat_cast_mul (c : Nat) {n : Int} (hn : 0 ≤ n) :
    ((c : Int) * n).toNat = c * n.toNat := by
  obtain ⟨m, rfl⟩ := Int.eq_ofNat_of_zero_le hn
  rw [← Nat.cast_mul]
  rw [Int.toNat_natCast, Int.toNat_natCast]

/-- With a positive page size, page `c + 1` is the slice of the ordered rows
starting at offset `c * per_page`. -/
lemma pageData_eq (db : List UsageRecord) (R : Int) {n : Int} (hn : 1 ≤ n) (c : Nat) :
    pageData db R n ((c : Int) + 1) =
      (((sortedRows db R).drop (c * n.toNat)).take n.toNat).enum.map
        (mkEntry ((c : Int) * n)) := by
  unfold pageData
  rw [get_top_users_ok db R ((c : Int) + 1) (by omega : n ≠ 0)]
  show (top_users_response db R ((c : Int) + 1) n).data = _
  rw [top_users_response_data]
  have hoff : ((c : Int) + 1 - 1) * n = (c : Int) * n := by ring
  rw [hoff, toNat_cast_mul c (by omega)]

/-- The concatenation of pages `1..count` equals the prefix of length
`count * per_page` of the full ordered listing, globally ranked from 1. -/
lemma pagesConcat_eq (db : List UsageRecord) (R : Int) {n : Int} (hn : 1 ≤ n)
    (count : Nat) :
    pagesConcat db R n count =
      ((sortedRows db R).take (count * n.toNat)).enum.map (mkEntry 0) := by
  induction count with
  | zero =>
    simp [pagesConcat]
  | succ c ih =>
    unfold pagesConcat at ih ⊢
    rw [List.range_succ, List.flatMap_append, ih]
    simp only [List.flatMap_cons, List.flatMap_nil, List.append_nil]
    rw [pageData_eq db R hn c]
    have hsucc : (c + 1) * n.toNat = c * n.toNat + n.toNat := by ring
    rw [hsucc, List.take_add, List.enum_append, List.map_append]
    congr 1
    rw [enumFrom_map_mkEntry]
    by_cases hc : (sortedRows db R).length ≤ c * n.toNat
    · have hdrop : (sortedRows db R).drop (c * n.toNat) = [] :=
        List.drop_eq_nil_of_le hc
      rw [hdrop]
      simp
    · push_neg at hc
      have hlen : ((sortedRows db R).take (c * n.toNat)).length = c * n.toNat := by
        rw [List.length_take]
        omega
      rw [hlen]
      have harg : (0 : Int) + ((c * n.toNat : Nat) : Int) = (c : Int) * n := by
        push_cast
        rw [Int.toNat_of_nonneg (by omega : (0 : Int) ≤ n)]
        ring
      rw [harg]

/-- C7: across the concatenation of the pages of the top-users listing at a
fixed reference instant, the rounded 30-day total is non-increasing in rank:
an entry with smaller rank has a 30-day total at least that of any entry
with larger rank. -/
theorem claim_rank_monotone (db : List UsageRecord) (R n : Int) (hn : 1 ≤ n)
    (count : Nat) (i j : Nat) (ei ej : TopUserEntry)
    (hi : (pagesConcat db R n count)[i]? = some ei)
    (hj : (pagesConcat db R n count)[j]? = some ej)
    (hrank : ei.rank < ej.rank) :
    ej.usage_30_days.total_kb ≤ ei.usage_30_days.total_kb := by
  rw [pagesConcat_eq db R hn count] at hi hj
  set L := (sortedRows db R).take (count * n.toNat) with hL
  obtain ⟨hilt, hie⟩ := List.getElem?_eq_some_iff.1 hi
  obtain ⟨hjlt, hje⟩ := List.getElem?_eq_some_iff.1 hj
  rw [List.getElem_map, List.getElem_enum] at hie hje
  have hiL : i < L.length := by
    have := hilt
    rwa [List.length_map, List.enum_length] at this
  have hjL : j < L.length := by
    have := hjlt
    rwa [List.length_map, List.enum_length] at this
  have hij : i < j := by
    rw [← hie, ← hje] at hrank
    rw [mkEntry_rank, mkEntry_rank] at hrank
    simp only at hrank
    omega
  have hsorted : List.Pairwise byTotalDesc (sortedRows db R) := by
    unfold sortedRows
    exact List.sorted_insertionSort byTotalDesc _
  have hpw : List.Pairwise byTotalDesc L :=
    hsorted.sublist (List.take_sublist _ _)
  have hrel := List.pairwise_iff_get.1 hpw ⟨i, hiL⟩ ⟨j, hjL⟩ (Fin.mk_lt_mk.2 hij)
  rw [List.get_eq_getElem, List.get_eq_getElem] at hrel
  unfold byTotalDesc at hrel
  rw [← hie, ← hje, mkEntry_usage_30_days, mkEntry_usage_30_days,
    periods_30_total, periods_30_total]
  simp only at hrel ⊢
  exact round2_mono hrel

section WitnessEvaluation

attribute [local semireducible] Rat.mul Rat.inv Rat.add Rat.sub

/-- Witness for C1: the hypotheses hold and the nesting property applies at
the concrete store `exampleDb`. -/
theorem claim_nested_windows_witness :
    (∀ r ∈ exampleDb, (0 : Rat) ≤ r.total_kb) ∧
    ((∀ resp, get_top_users exampleDb 0 1 10 = .ok resp → ∀ e ∈ resp.data,
      (e.usage_1_day.sessions ≤ e.usage_7_days.sessions ∧
       e.usage_7_days.sessions ≤ e.usage_30_days.sessions) ∧
      (e.usage_1_day.total_kb ≤ e.usage_7_days.total_kb ∧
       e.usage_7_days.total_kb ≤ e.usage_30_days.total_kb)) ∧
    (∀ dresp, get_user_details exampleDb "alice" 0 = some dresp →
      (dresp.usage_1_day.sessions ≤ dresp.usage_7_days.sessions ∧
       dresp.usage_7_days.sessions ≤ dresp.usage_30_days.sessions) ∧
      (dresp.usage_1_day.total_kb ≤ dresp.usage_7_days.total_kb ∧
       dresp.usage_7_days.total_kb ≤ dresp.usage_30_days.total_kb))) :=
  ⟨by decide, claim_nested_windows exampleDb 0 1 10 "alice" 0 (by decide)⟩

/-- C2 counterexample: the engine does not reject `per_page = 0`; against a
store with one user in the window the call reaches the page-count division
and raises `ZeroDivisionError` instead of returning a rejection signal. -/
theorem claim_per_page_guard_counterexample :
    get_top_users exampleDb 0 1 0 = .error .zeroDivision := rfl

/-- Witness for C2 (amended): the division-by-zero branch is reachable at a
concrete store with a non-empty window. -/
theorem claim_per_page_zero_division_witness :
    0 < total_users_count exampleDb 0 ∧
    get_top_users exampleDb 0 5 0 = .error .zeroDivision :=
  ⟨by decide, (claim_per_page_zero_division exampleDb 0 5).1 (by decide)⟩

/-- Witness for C3: `carol` has one record, 40 days before instant 0, so she
is found with all-zero windows; the first conjunct needs no witness input
but is exercised at `exampleDb` too by the not-found direction. -/
theorem claim_user_details_found_witness :
    (∃ r ∈ exampleDb, r.username = "carol") ∧
    (∀ r ∈ exampleDb, r.username = "carol" →
      ¬((0:Int) - 30 * secondsPerDay ≤ r.start_time ∧ r.start_time ≤ 0)) ∧
    get_user_details exampleDb "carol" 0 =
      some { username := "carol", timestamp := 0,
             usage_1_day := { upload_kb := 0, download_kb := 0, total_kb := 0, sessions := 0 },
             usage_7_days := { upload_kb := 0, download_kb := 0, total_kb := 0, sessions := 0 },
             usage_30_days := { upload_kb := 0, download_kb := 0, total_kb := 0, sessions := 0 } } :=
  ⟨by decide, by decide,
    (claim_user_details_found exampleDb "carol" 0).2 (by decide) (by decide)⟩

/-- C4 counterexample: on a store satisfying the stored invariant exactly
(upload = download = 0.004, total = 0.008), the returned 30-day window has
`total_kb = 0.01` but `upload_kb + download_kb = 0`: the rounded equation of
the claim fails. -/
theorem claim_sum_decomposition_counterexample :
    (∀ r ∈ roundingDb, r.total_kb = r.upload_kb + r.download_kb) ∧
    get_user_details roundingDb "alice" 0 = some roundingResp ∧
    roundingResp.usage_30_days.total_kb ≠
      roundingResp.usage_30_days.upload_kb + roundingResp.usage_30_days.download_kb := by
  refine ⟨by decide, by decide, by decide⟩

/-- Witness for C4 (amended): the bound applies at the concrete store
`exampleDb`. -/
theorem claim_sum_decomposition_witness :
    (∀ r ∈ exampleDb, r.total_kb = r.upload_kb + r.download_kb) ∧
    ((∀ (v : String) (S : Int),
      (aggRow exampleDb v S).total_1d =
        (aggRow exampleDb v S).upload_1d + (aggRow exampleDb v S).download_1d ∧
      (aggRow exampleDb v S).total_7d =
        (aggRow exampleDb v S).upload_7d + (aggRow exampleDb v S).download_7d ∧
      (aggRow exampleDb v S).total_30d =
        (aggRow exampleDb v S).upload_30d + (aggRow exampleDb v S).download_30d) ∧
    (∀ resp, get_top_users exampleDb 0 1 10 = .ok resp → ∀ e ∈ resp.data,
      |e.usage_1_day.total_kb - (e.usage_1_day.upload_kb + e.usage_1_day.download_kb)| ≤ 1/100 ∧
      |e.usage_7_days.total_kb - (e.usage_7_days.upload_kb + e.usage_7_days.download_kb)| ≤ 1/100 ∧
      |e.usage_30_days.total_kb - (e.usage_30_days.upload_kb + e.usage_30_days.download_kb)| ≤ 1/100) ∧
    (∀ dresp, get_user_details exampleDb "alice" 0 = some dresp →
      |dresp.usage_1_day.total_kb -
        (dresp.usage_1_day.upload_kb + dresp.usage_1_day.download_kb)| ≤ 1/100 ∧
      |dresp.usage_7_days.total_kb -
        (dresp.usage_7_days.upload_kb + dresp.usage_7_days.download_kb)| ≤ 1/100 ∧
      |dresp.usage_30_days.total_kb -
        (dresp.usage_30_days.upload_kb + dresp.usage_30_days.download_kb)| ≤ 1/100)) :=
  ⟨by decide, claim_sum_decomposition exampleDb 0 1 10 "alice" 0 (by decide)⟩

/-- Witness for C5: the characterization applies at the concrete store
`exampleDb`, whose first page response is `exampleResp`. -/
theorem claim_total_users_and_pages_witness :
    (1 : Int) ≤ 10 ∧
    get_top_users exampleDb 0 1 10 = .ok exampleResp ∧
    (exampleResp.total_users =
      ((windowDb exampleDb 0).map (fun r => r.username)).toFinset.card ∧
    (∀ v : String, v ∈ ((windowDb exampleDb 0).map (fun r => r.username)).toFinset ↔
      ∃ r ∈ exampleDb, r.username = v ∧
        (0:Int) - 30 * secondsPerDay ≤ r.start_time ∧ r.start_time ≤ 0) ∧
    exampleResp.total_pages =
      (((exampleResp.total_users + (10:Int).toNat - 1) / (10:Int).toNat : Nat) : Int)) :=
  ⟨by decide, get_top_users_ok exampleDb 0 1 (by decide),
    claim_total_users_and_pages exampleDb 0 1 10 (by decide) exampleResp
      (get_top_users_ok exampleDb 0 1 (by decide))⟩

/-- Witness for C6: the rank law applies at the concrete first page of
`exampleDb`. -/
theorem claim_rank_global_witness :
    (1 : Int) ≤ 1 ∧ (1 : Int) ≤ 10 ∧
    get_top_users exampleDb 0 1 10 = .ok exampleResp ∧
    ((∀ (i : Nat) (e : TopUserEntry), exampleResp.data[i]? = some e →
      e.rank = ((1:Int) - 1) * 10 + i + 1) ∧
    (∀ e : TopUserEntry, exampleResp.data.head? = some e →
      e.rank = ((1:Int) - 1) * 10 + 1)) :=
  ⟨by decide, by decide, get_top_users_ok exampleDb 0 1 (by decide),
    claim_rank_global exampleDb 0 1 10 (by decide) (by decide) exampleResp
      (get_top_users_ok exampleDb 0 1 (by decide))⟩

/-- Witness for C10: the size bound and consecutive-rank law apply at the
concrete second page (page size 1) of `exampleDb`. -/
theorem claim_page_size_and_ranks_witness :
    (1 : Int) ≤ 2 ∧ (1 : Int) ≤ 1 ∧
    get_top_users exampleDb 0 2 1 = .ok examplePage2 ∧
    (examplePage2.data.length ≤ (1:Int).toNat ∧
    (∀ (i : Nat) (e : TopUserEntry), examplePage2.data[i]? = some e →
      e.rank = ((2:Int) - 1) * 1 + i + 1)) :=
  ⟨by decide, by decide, get_top_users_ok exampleDb 0 2 (by decide),
    claim_page_size_and_ranks exampleDb 0 2 1 (by decide) (by decide) examplePage2
      (get_top_users_ok exampleDb 0 2 (by decide))⟩

/-- Witness for C8: page 100 with page size 10 against the 3-user store
`exampleDb` (2 users in the window of instant 0). -/
theorem claim_beyond_page_empty_witness :
    (1 : Int) ≤ 100 ∧ (1 : Int) ≤ 10 ∧
    total_users_count exampleDb 0 ≤ (((100:Int) - 1) * 10).toNat ∧
    ((∃ resp, get_top_users exampleDb 0 100 10 = .ok resp ∧
      resp.data = [] ∧ resp.page = 100) ∧
    (∃ resp0, get_top_users ([] : List UsageRecord) 0 100 10 = .ok resp0 ∧
      resp0.data = [] ∧ resp0.total_users = 0 ∧ resp0.total_pages = 0 ∧
      resp0.page = 100)) :=
  ⟨by decide, by decide, by decide,
    claim_beyond_page_empty exampleDb 0 100 10 (by decide) (by decide) (by decide)⟩

/-- Witness for C9: an empty frame with exactly the required columns ingested
with `clear_existing = true` over the non-empty store `exampleDb`. -/
theorem claim_ingest_empty_noop_witness :
    (REQUIRED_COLUMNS.all
      (fun c => (emptyFrame.columns.map (fun s => pyStrip s)).contains c) = true) ∧
    emptyFrame.rows = [] ∧
    ingest_data (fun _ => some 0) (fun _ => some 0) emptyFrame exampleDb true =
      .ok (0, exampleDb) :=
  ⟨by decide, rfl,
    claim_ingest_empty_noop (fun _ => some 0) (fun _ => some 0) emptyFrame exampleDb true
      (by decide) rfl⟩

/-- Witness for C7: two pages of size 1 of `exampleDb`; the rank-1 entry
(alice, 30-day total 150) dominates the rank-2 entry (bob, total 17). -/
theorem claim_rank_monotone_witness :
    (1 : Int) ≤ 1 ∧
    (pagesConcat exampleDb 0 1 2)[0]? =
      some (mkEntry 0 (0, aggRow exampleDb "alice" 0)) ∧
    (pagesConcat exampleDb 0 1 2)[1]? =
      some (mkEntry 1 (0, aggRow exampleDb "bob" 0)) ∧
    (mkEntry 0 (0, aggRow exampleDb "alice" 0)).rank <
      (mkEntry 1 (0, aggRow exampleDb "bob" 0)).rank ∧
    (mkEntry 1 (0, aggRow exampleDb "bob" 0)).usage_30_days.total_kb ≤
      (mkEntry 0 (0, aggRow exampleDb "alice" 0)).usage_30_days.total_kb :=
  ⟨by decide, by decide, by decide, by decide,
    claim_rank_monotone exampleDb 0 1 (by decide) 2 0 1
      (mkEntry 0 (0, aggRow exampleDb "alice" 0))
      (mkEntry 1 (0, aggRow exampleDb "bob" 0))
      (by decide) (by decide) (by decide)⟩

end WitnessEvaluation

end NetScope
